import Mathlib

/-!
Verification of the Komodo image-generator front end (src/App.tsx).

The component is embedded shallowly: its five useState variables (plus the
file-input DOM value and a counter supplying fresh object-URL handles) form
`AppState`; each event handler becomes a pure function from a state to a new
state paired with the list of observable side effects it performs (object-URL
revocations, calls to the external generation service, console logging, and
file downloads).  The asynchronous outcome of the external call, and of the
FileReader used to encode an uploaded file, are passed to the submit handler
as explicit parameters, so one application of `handleSubmit` models one
completed submission.
-/

namespace Komodo

/-- A browser File: its raw bytes and its declared media type (file.type). -/
structure FileData where
  bytes : List Nat
  mimeType : String
  deriving Repr, DecidableEq

/-- The value held by the uploadedImage state: the file and the object-URL
preview handle created for it (handles are modelled as natural numbers). -/
structure UploadedImage where
  file : FileData
  preview : Nat
  deriving Repr, DecidableEq

/-- The image payload of a generation request: base64 data and mime type. -/
structure ImagePayload where
  data : String
  mimeType : String
  deriving Repr, DecidableEq

/-- The component state: the five useState variables of App, together with
the file input DOM value (fileInputRef.current.value) and the counter from
which URL.createObjectURL draws fresh handles. -/
structure AppState where
  prompt : String
  generatedImage : Option String
  uploadedImage : Option UploadedImage
  isLoading : Bool
  error : Option String
  fileInputValue : String
  nextHandle : Nat
  deriving Repr, DecidableEq

/-- The initial state of the component on mount. -/
def initState : AppState :=
  { prompt := "", generatedImage := none, uploadedImage := none,
    isLoading := false, error := none, fileInputValue := "", nextHandle := 0 }

/-- Observable side effects of the handlers. -/
inductive Effect where
  | revoke (handle : Nat)
  | serviceCall (prompt : String) (image : Option ImagePayload)
  | consoleError (msg : String)
  | downloadFile (href : String) (filename : String)
  deriving Repr, DecidableEq

/-- Outcome of the awaited external generateImage call. -/
inductive CallResult where
  | ok (base64 : String)
  | err (msg : String)
  deriving Repr, DecidableEq

/-- The characters stripped by ECMAScript TrimString: the WhiteSpace
productions TAB, VT, FF, SP, NBSP and ZWNBSP together with every Unicode
space separator (U+1680, U+2000 to U+200A, U+202F, U+205F, U+3000), and the
LineTerminator productions LF, CR, LS and PS. -/
def isWs (c : Char) : Bool :=
  c = ' ' || c = '\t' || c = '\n' || c = '\r' ||
  c.val = 0x0B || c.val = 0x0C || c.val = 0xA0 || c.val = 0x1680 ||
  (0x2000 ≤ c.val && c.val ≤ 0x200A) ||
  c.val = 0x2028 || c.val = 0x2029 || c.val = 0x202F ||
  c.val = 0x205F || c.val = 0x3000 || c.val = 0xFEFF

/-- JavaScript String.trim: strip whitespace from both ends. -/
def jsTrim (s : String) : String :=
  ⟨((s.data.dropWhile isWs).reverse.dropWhile isWs).reverse⟩

/-- The standard base64 alphabet. -/
def b64Alphabet : List Char :=
  "ABCDEFGHIJKLMNOPQRSTUVWXYZabcdefghijklmnopqrstuvwxyz0123456789+/".data

/-- The base64 digit for a 6-bit value. -/
def b64Char (n : Nat) : Char := b64Alphabet.getD n 'A'

/-- Base64 encoding of a byte sequence, three bytes to four digits, with
trailing = padding. -/
def base64Encode : List Nat → List Char
  | [] => []
  | [a] => [b64Char (a % 256 / 4), b64Char (a % 4 * 16), '=', '=']
  | [a, b] => [b64Char (a % 256 / 4), b64Char (a % 4 * 16 + b % 256 / 16),
               b64Char (b % 16 * 4), '=']
  | a :: b :: c :: rest =>
      b64Char (a % 256 / 4) :: b64Char (a % 4 * 16 + b % 256 / 16) ::
      b64Char (b % 16 * 4 + c % 256 / 64) :: b64Char (c % 64) ::
      base64Encode rest

/-- JavaScript String.split with separator a comma: cut the character list at
every comma.  The result always has at least one element. -/
def splitOnComma : List Char → List (List Char)
  | [] => [[]]
  | c :: rest =>
      if c = ',' then [] :: splitOnComma rest
      else
        match splitOnComma rest with
        | [] => [[c]]
        | h :: t => (c :: h) :: t

/-- FileReader.readAsDataURL: the data URL for a file, namely
data:<mimeType>;base64,<base64 of the bytes>. -/
def readAsDataURL (f : FileData) : List Char :=
  ("data:" ++ f.mimeType ++ ";base64,").data ++ base64Encode f.bytes

/-- fileToBase64 from App.tsx: read the file as a data URL and take the part
after the first comma ((reader.result as string).split(',')[1]). -/
def fileToBase64 (f : FileData) : String :=
  ⟨(splitOnComma (readAsDataURL f)).getD 1 []⟩

/-- The generic user-facing failure message set by the submit handler. -/
def failMsg : String := "Failed to generate image. Please try again later."

/-- handleImageUpload from App.tsx: when the change event carries a file,
revoke the previous preview handle (if any), store the file with a fresh
preview handle, and clear the generated image and the error. -/
def handleImageUpload (s : AppState) (files : List FileData) :
    AppState × List Effect :=
  match files.head? with
  | none => (s, [])
  | some file =>
      ({ s with
          uploadedImage := some { file := file, preview := s.nextHandle },
          nextHandle := s.nextHandle + 1,
          generatedImage := none,
          error := none },
       match s.uploadedImage with
       | some u => [Effect.revoke u.preview]
       | none => [])

/-- removeUploadedImage from App.tsx: revoke the current preview handle (if
any), clear the uploadedImage state and reset the file input value. -/
def removeUploadedImage (s : AppState) : AppState × List Effect :=
  ({ s with uploadedImage := none, fileInputValue := "" },
   match s.uploadedImage with
   | some u => [Effect.revoke u.preview]
   | none => [])

/-- Shared tail of handleSubmit once the optional image payload is in hand:
await generateImage and either store the data URL or store the generic error
and log the cause; either way loading ends false. -/
def finishCall (s1 : AppState) (payload : Option ImagePayload)
    (svc : CallResult) : AppState × List Effect :=
  match svc with
  | CallResult.ok b =>
      ({ s1 with generatedImage := some ("data:image/png;base64," ++ b),
                 isLoading := false },
       [Effect.serviceCall s1.prompt payload])
  | CallResult.err e =>
      ({ s1 with error := some failMsg, isLoading := false },
       [Effect.serviceCall s1.prompt payload, Effect.consoleError e])

/-- handleSubmit from App.tsx.  encodeErr is the outcome of the FileReader
used by fileToBase64 (none on success; it is consulted only when an image is
uploaded, because only then does any encoding run); svc is the outcome of the
awaited generateImage call. -/
def handleSubmit (s : AppState) (encodeErr : Option String)
    (svc : CallResult) : AppState × List Effect :=
  if jsTrim s.prompt = "" || s.isLoading then (s, [])
  else
    let s1 := { s with isLoading := true, error := none, generatedImage := none }
    match s.uploadedImage, encodeErr with
    | some _, some e =>
        ({ s1 with error := some failMsg, isLoading := false },
         [Effect.consoleError e])
    | some u, none =>
        finishCall s1
          (some { data := fileToBase64 u.file, mimeType := u.file.mimeType })
          svc
    | none, _ => finishCall s1 none svc

/-- handleDownload from App.tsx: a no-op without a generated image; with one,
save it under the fixed filename, touching no state. -/
def handleDownload (s : AppState) : AppState × List Effect :=
  match s.generatedImage with
  | none => (s, [])
  | some img => (s, [Effect.downloadFile img "generated-image.png"])

/-- The user-visible operations of the component. -/
inductive Op where
  | setPrompt (p : String)
  | upload (files : List FileData)
  | removeUpload
  | submit (encodeErr : Option String) (svc : CallResult)
  | download
  deriving Repr, DecidableEq

/-- One completed operation. -/
def stepFn (s : AppState) : Op → AppState × List Effect
  | Op.setPrompt p => ({ s with prompt := p }, [])
  | Op.upload files => handleImageUpload s files
  | Op.removeUpload => removeUploadedImage s
  | Op.submit enc svc => handleSubmit s enc svc
  | Op.download => handleDownload s

/-- Run a sequence of completed operations, accumulating all effects. -/
def run (s : AppState) : List Op → AppState × List Effect
  | [] => (s, [])
  | op :: ops =>
      let r1 := stepFn s op
      let r2 := run r1.1 ops
      (r2.1, r1.2 ++ r2.2)

/-- The object-URL handles revoked in an effect trace, in order. -/
def revokes (effs : List Effect) : List Nat :=
  effs.filterMap fun e =>
    match e with
    | Effect.revoke h => some h
    | _ => none

/-- The generation-service calls in an effect trace: prompt and payload. -/
def calls (effs : List Effect) : List (String × Option ImagePayload) :=
  effs.filterMap fun e =>
    match e with
    | Effect.serviceCall p im => some (p, im)
    | _ => none

/-- How many of the three output-pane drivers are active. -/
def displayCount (s : AppState) : Nat :=
  (if s.isLoading then 1 else 0) + (if s.error.isSome then 1 else 0) +
    (if s.generatedImage.isSome then 1 else 0)

theorem getD_ne_comma (l : List Char) (n : Nat) (hc : ∀ c ∈ l, c ≠ ',') :
    l.getD n 'A' ≠ ',' := by
  induction l generalizing n with
  | nil => rw [List.getD_nil]; decide
  | cons a t ih =>
    cases n with
    | zero => rw [List.getD_cons_zero]; exact hc a (by simp)
    | succ m =>
      rw [List.getD_cons_succ]
      exact ih m fun c hm => hc c (by simp [hm])

theorem b64Char_ne_comma (n : Nat) : b64Char n ≠ ',' :=
  getD_ne_comma b64Alphabet n (by decide)

theorem b64_no_comma : ∀ bs : List Nat, ∀ c ∈ base64Encode bs, c ≠ ','
  | [] => by simp [base64Encode]
  | [a] => by
      intro c hc
      simp [base64Encode] at hc
      rcases hc with h | h | h
      · exact h ▸ b64Char_ne_comma _
      · exact h ▸ b64Char_ne_comma _
      · subst h; decide
  | [a, b] => by
      intro c hc
      simp [base64Encode] at hc
      rcases hc with h | h | h | h
      · exact h ▸ b64Char_ne_comma _
      · exact h ▸ b64Char_ne_comma _
      · exact h ▸ b64Char_ne_comma _
      · subst h; decide
  | a :: b :: c0 :: rest => by
      intro c hc
      simp only [base64Encode, List.mem_cons] at hc
      rcases hc with h | h | h | h | h
      · exact h ▸ b64Char_ne_comma _
      · exact h ▸ b64Char_ne_comma _
      · exact h ▸ b64Char_ne_comma _
      · exact h ▸ b64Char_ne_comma _
      · exact b64_no_comma rest c h

theorem splitOnComma_no_comma :
    ∀ l : List Char, (∀ c ∈ l, c ≠ ',') → splitOnComma l = [l]
  | [] => fun _ => rfl
  | c :: rest => fun h => by
      have hc : c ≠ ',' := h c (by simp)
      have ih := splitOnComma_no_comma rest fun x hx => h x (by simp [hx])
      simp [splitOnComma, hc, ih]

theorem splitOnComma_append :
    ∀ l1 l2 : List Char, (∀ c ∈ l1, c ≠ ',') →
      splitOnComma (l1 ++ ',' :: l2) = l1 :: splitOnComma l2
  | [], l2 => fun _ => by simp [splitOnComma]
  | c :: rest, l2 => fun h => by
      have hc : c ≠ ',' := h c (by simp)
      have ih := splitOnComma_append rest l2 fun x hx => h x (by simp [hx])
      simp [splitOnComma, hc, ih]

theorem fileToBase64_eq (f : FileData)
    (h : ∀ c ∈ f.mimeType.data, c ≠ ',') :
    fileToBase64 f = String.mk (base64Encode f.bytes) := by
  have hpre : ∀ c ∈ "data:".data ++ f.mimeType.data ++ ";base64".data,
      c ≠ ',' := by
    intro c hc
    have h1 : ∀ c ∈ "data:".data, c ≠ ',' := by decide
    have h2 : ∀ c ∈ ";base64".data, c ≠ ',' := by decide
    rcases List.mem_append.mp hc with hc1 | hc2
    · rcases List.mem_append.mp hc1 with hd | hm
      · exact h1 c hd
      · exact h c hm
    · exact h2 c hc2
  have hdata : readAsDataURL f
      = ("data:".data ++ f.mimeType.data ++ ";base64".data)
          ++ ',' :: base64Encode f.bytes := by
    show ("data:" ++ f.mimeType ++ ";base64,").data ++ base64Encode f.bytes = _
    rw [String.data_append, String.data_append]
    simp
  rw [fileToBase64, hdata, splitOnComma_append _ _ hpre,
    splitOnComma_no_comma _ (b64_no_comma f.bytes)]
  rfl

theorem handleSubmit_frame (s : AppState) (enc : Option String)
    (svc : CallResult) :
    (handleSubmit s enc svc).1.prompt = s.prompt ∧
    (handleSubmit s enc svc).1.uploadedImage = s.uploadedImage ∧
    (handleSubmit s enc svc).1.nextHandle = s.nextHandle ∧
    (handleSubmit s enc svc).1.fileInputValue = s.fileInputValue := by
  by_cases hg : (jsTrim s.prompt = "" || s.isLoading) = true
  · simp [handleSubmit, hg]
  · cases h : s.uploadedImage <;> cases enc <;> cases svc <;>
      simp [handleSubmit, finishCall, hg, h]

theorem handleSubmit_no_revokes (s : AppState) (enc : Option String)
    (svc : CallResult) : revokes (handleSubmit s enc svc).2 = [] := by
  by_cases hg : (jsTrim s.prompt = "" || s.isLoading) = true
  · simp [handleSubmit, hg, revokes]
  · cases h : s.uploadedImage <;> cases enc <;> cases svc <;>
      simp [handleSubmit, finishCall, hg, h, revokes]

/-- Invariant tying a state to the handles revoked so far: no handle is
revoked twice, all revoked handles were drawn from the counter, and the live
preview handle is unrevoked and was drawn from the counter. -/
def HandleInv (s : AppState) (rev : List Nat) : Prop :=
  rev.Nodup ∧ (∀ h ∈ rev, h < s.nextHandle) ∧
    ∀ u, s.uploadedImage = some u → u.preview < s.nextHandle ∧ u.preview ∉ rev

theorem stepFn_handleInv (s : AppState) (rev : List Nat) (op : Op)
    (h : HandleInv s rev) :
    HandleInv (stepFn s op).1 (rev ++ revokes (stepFn s op).2) := by
  obtain ⟨hnd, hlt, hup⟩ := h
  cases op with
  | setPrompt p =>
    exact ⟨by simpa [stepFn, revokes] using hnd,
      by simpa [stepFn, revokes] using hlt,
      by simpa [stepFn, revokes] using hup⟩
  | upload files =>
    cases hf : files.head? with
    | none =>
      exact ⟨by simpa [stepFn, handleImageUpload, hf, revokes] using hnd,
        by simpa [stepFn, handleImageUpload, hf, revokes] using hlt,
        by simpa [stepFn, handleImageUpload, hf, revokes] using hup⟩
    | some f =>
      cases hu : s.uploadedImage with
      | none =>
        refine ⟨?_, ?_, ?_⟩ <;>
          simp [stepFn, handleImageUpload, hf, hu, revokes]
        · exact hnd
        · exact fun x hx => Nat.lt_succ_of_lt (hlt x hx)
        · exact fun hmem => Nat.lt_irrefl _ (hlt _ hmem)
      | some u =>
        have hu2 := hup u hu
        refine ⟨?_, ?_, ?_⟩ <;>
          simp [stepFn, handleImageUpload, hf, hu, revokes]
        · simp [List.nodup_append, hnd, hu2.2]
        · intro x hx
          rcases hx with hx | hx
          · exact Nat.lt_succ_of_lt (hlt x hx)
          · exact hx ▸ Nat.lt_succ_of_lt hu2.1
        · exact ⟨fun hmem => Nat.lt_irrefl _ (hlt _ hmem),
            fun heq => Nat.lt_irrefl _ (heq ▸ hu2.1)⟩
  | removeUpload =>
    cases hu : s.uploadedImage with
    | none =>
      exact ⟨by simpa [stepFn, removeUploadedImage, hu, revokes] using hnd,
        by simpa [stepFn, removeUploadedImage, hu, revokes] using hlt,
        by simp [stepFn, removeUploadedImage, hu, revokes]⟩
    | some u =>
      have hu2 := hup u hu
      refine ⟨?_, ?_, ?_⟩ <;>
        simp [stepFn, removeUploadedImage, hu, revokes]
      · simp [List.nodup_append, hnd, hu2.2]
      · intro x hx
        rcases hx with hx | hx
        · exact hlt x hx
        · exact hx ▸ hu2.1
  | submit enc svc =>
    have hfr := handleSubmit_frame s enc svc
    have hrv : revokes (stepFn s (Op.submit enc svc)).2 = [] :=
      handleSubmit_no_revokes s enc svc
    rw [hrv, List.append_nil]
    refine ⟨hnd, ?_, ?_⟩
    · intro x hx
      rw [show (stepFn s (Op.submit enc svc)).1.nextHandle = s.nextHandle
        from hfr.2.2.1]
      exact hlt x hx
    · intro u huu
      rw [show (stepFn s (Op.submit enc svc)).1.nextHandle = s.nextHandle
        from hfr.2.2.1]
      exact hup u (hfr.2.1 ▸ huu)
  | download =>
    cases hg : s.generatedImage with
    | none =>
      exact ⟨by simpa [stepFn, handleDownload, hg, revokes] using hnd,
        by simpa [stepFn, handleDownload, hg, revokes] using hlt,
        by simpa [stepFn, handleDownload, hg, revokes] using hup⟩
    | some img =>
      exact ⟨by simpa [stepFn, handleDownload, hg, revokes] using hnd,
        by simpa [stepFn, handleDownload, hg, revokes] using hlt,
        by simpa [stepFn, handleDownload, hg, revokes] using hup⟩

theorem run_handleInv (ops : List Op) :
    ∀ (s : AppState) (rev : List Nat), HandleInv s rev →
      HandleInv (run s ops).1 (rev ++ revokes (run s ops).2) := by
  induction ops with
  | nil => intro s rev h; simpa [run, revokes] using h
  | cons op ops ih =>
    intro s rev h
    have h1 := stepFn_handleInv s rev op h
    have h2 := ih (stepFn s op).1 (rev ++ revokes (stepFn s op).2) h1
    simpa [run, revokes, List.filterMap_append, List.append_assoc] using h2

theorem stepFn_displayCount (s : AppState) (op : Op)
    (h : displayCount s ≤ 1) : displayCount (stepFn s op).1 ≤ 1 := by
  cases op with
  | setPrompt p => simpa [stepFn, displayCount] using h
  | upload files =>
    cases hf : files.head? with
    | none => simpa [stepFn, handleImageUpload, hf, displayCount] using h
    | some f =>
      simp only [stepFn, handleImageUpload, hf, displayCount]
      split <;> simp
  | removeUpload =>
    cases hu : s.uploadedImage <;>
      simpa [stepFn, removeUploadedImage, hu, displayCount] using h
  | submit enc svc =>
    by_cases hg : (jsTrim s.prompt = "" || s.isLoading) = true
    · simpa [stepFn, handleSubmit, hg] using h
    · cases hu : s.uploadedImage <;> cases enc <;> cases svc <;>
        simp [stepFn, handleSubmit, finishCall, hu, hg, displayCount]
  | download =>
    cases hgi : s.generatedImage <;>
      simpa [stepFn, handleDownload, hgi, displayCount] using h

theorem run_displayCount (ops : List Op) :
    ∀ s : AppState, displayCount s ≤ 1 → displayCount (run s ops).1 ≤ 1 := by
  induction ops with
  | nil => intro s h; simpa [run] using h
  | cons op ops ih =>
    intro s h
    exact ih (stepFn s op).1 (stepFn_displayCount s op h)

/-- C1: for a submission with a non-blank prompt, not already loading and no
uploaded image, a successful external call returning base64 string b leaves
the generated image equal to data:image/png;base64, followed by b, the error
null and the loading flag false. -/
theorem submit_success_result (s : AppState) (b : String)
    (hp : jsTrim s.prompt ≠ "") (hl : s.isLoading = false)
    (hu : s.uploadedImage = none) :
    (handleSubmit s none (CallResult.ok b)).1.generatedImage
        = some ("data:image/png;base64," ++ b) ∧
    (handleSubmit s none (CallResult.ok b)).1.error = none ∧
    (handleSubmit s none (CallResult.ok b)).1.isLoading = false := by
  simp [handleSubmit, finishCall, hp, hl, hu]

/-- Witness for C1: the end-to-end instance, prompt A red balloon and
response Zm9v yield data:image/png;base64,Zm9v with no error, not loading. -/
theorem submit_success_result_witness :
    jsTrim "A red balloon" ≠ "" ∧
    (handleSubmit { initState with prompt := "A red balloon" } none
        (CallResult.ok "Zm9v")).1.generatedImage
      = some "data:image/png;base64,Zm9v" ∧
    (handleSubmit { initState with prompt := "A red balloon" } none
        (CallResult.ok "Zm9v")).1.error = none ∧
    (handleSubmit { initState with prompt := "A red balloon" } none
        (CallResult.ok "Zm9v")).1.isLoading = false := by
  have h := submit_success_result { initState with prompt := "A red balloon" }
    "Zm9v" (by decide) rfl rfl
  exact ⟨by decide, h.1.trans (by decide), h.2.1, h.2.2⟩

/-- C4: for a submission with a non-blank prompt and not already loading,
both failure paths (the external call rejecting, and the file encoding
rejecting when an image is uploaded) end with loading false, no generated
image, the error set to the fixed generic message failMsg (a constant, hence
independent of the cause e), and the cause logged to the console; moreover
the loading flag is false after every completed submission, whatever the
outcome. -/
theorem submit_failure_result (s : AppState) (e : String)
    (hp : jsTrim s.prompt ≠ "") (hl : s.isLoading = false) :
    ((handleSubmit s none (CallResult.err e)).1.isLoading = false ∧
     (handleSubmit s none (CallResult.err e)).1.generatedImage = none ∧
     (handleSubmit s none (CallResult.err e)).1.error = some failMsg ∧
     Effect.consoleError e ∈ (handleSubmit s none (CallResult.err e)).2) ∧
    (∀ u, s.uploadedImage = some u →
      (handleSubmit s (some e) (CallResult.err e)).1.isLoading = false ∧
      (handleSubmit s (some e) (CallResult.err e)).1.generatedImage = none ∧
      (handleSubmit s (some e) (CallResult.err e)).1.error = some failMsg ∧
      Effect.consoleError e ∈ (handleSubmit s (some e) (CallResult.err e)).2 ∧
      calls (handleSubmit s (some e) (CallResult.err e)).2 = []) ∧
    (∀ (enc : Option String) (svc : CallResult),
      (handleSubmit s enc svc).1.isLoading = false) := by
  refine ⟨?_, ?_, ?_⟩
  · cases h : s.uploadedImage <;>
      simp [handleSubmit, finishCall, hp, hl, h]
  · intro u hu
    simp [handleSubmit, finishCall, hp, hl, hu, calls]
  · intro enc svc
    cases h : s.uploadedImage <;> cases enc <;> cases svc <;>
      simp [handleSubmit, finishCall, hp, hl, h]

/-- Witness for C4: a concrete failing submission from the initial state with
prompt cat. -/
theorem submit_failure_result_witness :
    (handleSubmit { initState with prompt := "cat" } none
        (CallResult.err "boom")).1.isLoading = false ∧
    (handleSubmit { initState with prompt := "cat" } none
        (CallResult.err "boom")).1.generatedImage = none ∧
    (handleSubmit { initState with prompt := "cat" } none
        (CallResult.err "boom")).1.error = some failMsg ∧
    Effect.consoleError "boom" ∈ (handleSubmit { initState with prompt := "cat" }
        none (CallResult.err "boom")).2 := by
  have h := submit_failure_result { initState with prompt := "cat" } "boom"
    (by decide) rfl
  exact h.1

/-- C5: submitting with a prompt that is empty after trimming, or while a
call is in flight, is a complete no-op: the state (all five variables and
the rest) is returned unchanged and no effect, in particular no external
call, is issued. -/
theorem submit_guard_noop (s : AppState) (enc : Option String)
    (svc : CallResult)
    (h : jsTrim s.prompt = "" ∨ s.isLoading = true) :
    handleSubmit s enc svc = (s, []) := by
  rcases h with h | h <;> simp [handleSubmit, h]

/-- Witness for C5: a space-only prompt, a prompt made only of the exotic
whitespace NBSP, VT and FF (all stripped by TrimString), and a loading
state, are each left untouched. -/
theorem submit_guard_noop_witness :
    handleSubmit { initState with prompt := "   " } none (CallResult.ok "x")
      = ({ initState with prompt := "   " }, []) ∧
    handleSubmit { initState with prompt := " \u000B\u000C" } none
        (CallResult.ok "x")
      = ({ initState with prompt := " \u000B\u000C" }, []) ∧
    handleSubmit { initState with prompt := "hi", isLoading := true } none
        (CallResult.ok "x")
      = ({ initState with prompt := "hi", isLoading := true }, []) :=
  ⟨submit_guard_noop _ _ _ (Or.inl (by decide)),
   submit_guard_noop _ _ _ (Or.inl (by decide)),
   submit_guard_noop _ _ _ (Or.inr rfl)⟩

/-- C2: for a submission with a non-blank prompt and not already loading,
when an image is uploaded (and its declared media type, being a media type,
contains no comma) the external call is issued exactly once, with the stored
prompt and a payload whose data is the base64 encoding of the file bytes and
whose mimeType is the file declared media type; with no upload, the call is
issued exactly once with the prompt and no payload. -/
theorem submit_call_payload (s : AppState) (svc : CallResult)
    (hp : jsTrim s.prompt ≠ "") (hl : s.isLoading = false) :
    (∀ u, s.uploadedImage = some u → (∀ c ∈ u.file.mimeType.data, c ≠ ',') →
      calls (handleSubmit s none svc).2
        = [(s.prompt,
            some { data := String.mk (base64Encode u.file.bytes),
                   mimeType := u.file.mimeType })]) ∧
    (s.uploadedImage = none →
      calls (handleSubmit s none svc).2 = [(s.prompt, none)]) := by
  constructor
  · intro u hu hm
    cases svc <;>
      simp [handleSubmit, finishCall, hp, hl, hu, calls, fileToBase64_eq u.file hm]
  · intro hu
    cases svc <;>
      simp [handleSubmit, finishCall, hp, hl, hu, calls]

/-- Witness for C2: the end-to-end instance, prompt edit this with an
uploaded JPEG whose bytes are those of foo; the service is called with
payload data Zm9v and mimeType image/jpeg. -/
theorem submit_call_payload_witness :
    calls (handleSubmit
        { initState with
            prompt := "edit this",
            uploadedImage := some
              { file := { bytes := [102, 111, 111], mimeType := "image/jpeg" },
                preview := 0 },
            nextHandle := 1 }
        none (CallResult.ok "out")).2
      = [("edit this",
          some { data := "Zm9v", mimeType := "image/jpeg" })] := by
  have h := (submit_call_payload
    { initState with
        prompt := "edit this",
        uploadedImage := some
          { file := { bytes := [102, 111, 111], mimeType := "image/jpeg" },
            preview := 0 },
        nextHandle := 1 }
    (CallResult.ok "out") (by decide) rfl).1
    { file := { bytes := [102, 111, 111], mimeType := "image/jpeg" },
      preview := 0 } rfl (by decide)
  exact h.trans (by decide)

/-- C10: every external call issued by a completed submission carries the
stored prompt verbatim (trimming is used only in the guard); and whenever
the guard passes and the encoding succeeds, such a call with the untrimmed
stored prompt is in fact issued. -/
theorem submit_prompt_verbatim (s : AppState) (enc : Option String)
    (svc : CallResult) :
    (∀ (pr : String) (im : Option ImagePayload),
      Effect.serviceCall pr im ∈ (handleSubmit s enc svc).2 → pr = s.prompt) ∧
    (jsTrim s.prompt ≠ "" → s.isLoading = false → enc = none →
      ∃ im, Effect.serviceCall s.prompt im ∈ (handleSubmit s enc svc).2) := by
  constructor
  · intro pr im hmem
    by_cases hg : (jsTrim s.prompt = "" || s.isLoading) = true
    · simp [handleSubmit, hg] at hmem
    · cases h : s.uploadedImage <;> cases enc <;> cases svc <;>
        simp [handleSubmit, finishCall, hg, h] at hmem <;>
        tauto
  · intro hp hl henc
    subst henc
    cases h : s.uploadedImage <;> cases svc <;>
      simp [handleSubmit, finishCall, hp, hl, h]

/-- Witness for C10: from a state whose prompt has surrounding whitespace,
the call is issued with the prompt as stored, untrimmed. -/
theorem submit_prompt_verbatim_witness :
    ∃ im, Effect.serviceCall "  hi " im
      ∈ (handleSubmit { initState with prompt := "  hi " } none
          (CallResult.ok "x")).2 :=
  (submit_prompt_verbatim { initState with prompt := "  hi " } none
    (CallResult.ok "x")).2 (by decide) rfl rfl

/-- C7: from a state with an uploaded image, the remove operation revokes
exactly that preview handle, clears the uploadedImage state and resets the
file input value to the empty string, leaving everything else alone. -/
theorem remove_upload_spec (s : AppState) (u : UploadedImage)
    (h : s.uploadedImage = some u) :
    removeUploadedImage s
      = ({ s with uploadedImage := none, fileInputValue := "" },
         [Effect.revoke u.preview]) := by
  simp [removeUploadedImage, h]

/-- Witness for C7: removing a concrete upload. -/
theorem remove_upload_spec_witness :
    removeUploadedImage
        { initState with
            uploadedImage := some
              { file := { bytes := [1, 2], mimeType := "image/png" },
                preview := 0 },
            nextHandle := 1, fileInputValue := "f.png" }
      = ({ initState with uploadedImage := none, nextHandle := 1,
                          fileInputValue := "" },
         [Effect.revoke 0]) :=
  (remove_upload_spec
    { initState with
        uploadedImage := some
          { file := { bytes := [1, 2], mimeType := "image/png" },
            preview := 0 },
        nextHandle := 1, fileInputValue := "f.png" }
    { file := { bytes := [1, 2], mimeType := "image/png" }, preview := 0 }
    rfl).trans (by decide)

/-- C9: the remove operation never touches the generated image or the error:
both come out exactly as they went in, for every state. -/
theorem remove_preserves_result (s : AppState) :
    (removeUploadedImage s).1.generatedImage = s.generatedImage ∧
    (removeUploadedImage s).1.error = s.error := by
  cases h : s.uploadedImage <;> simp [removeUploadedImage, h]

/-- C8: the download operation changes no state at all; with no generated
image it produces no effect, and with one it produces exactly one file save
of the data URL under the fixed name generated-image.png. -/
theorem download_frame (s : AppState) :
    (handleDownload s).1 = s ∧
    (s.generatedImage = none → (handleDownload s).2 = []) ∧
    (∀ img, s.generatedImage = some img →
      (handleDownload s).2 = [Effect.downloadFile img "generated-image.png"]) := by
  refine ⟨?_, ?_, ?_⟩
  · cases h : s.generatedImage <;> simp [handleDownload, h]
  · intro h; simp [handleDownload, h]
  · intro img h; simp [handleDownload, h]

/-- Witness for C8: download from the initial state saves nothing; download
with a concrete result saves it under generated-image.png, both leaving the
state untouched. -/
theorem download_frame_witness :
    (handleDownload initState).1 = initState ∧
    (handleDownload initState).2 = [] ∧
    (handleDownload { initState with generatedImage := some "d" }).2
      = [Effect.downloadFile "d" "generated-image.png"] :=
  ⟨(download_frame initState).1,
   (download_frame initState).2.1 rfl,
   (download_frame { initState with generatedImage := some "d" }).2.2 "d" rfl⟩

/-- C3: in every state reachable from the initial state by completed
operations, at most one of the three output-pane drivers (loading true,
error set, generated image set) is active. -/
theorem display_mutual_exclusion (ops : List Op) :
    displayCount (run initState ops).1 ≤ 1 :=
  run_displayCount ops initState (by decide)

/-- C6: across every session (every operation sequence from the initial
state) no object-URL handle is ever revoked twice; and one upload step over
an existing upload revokes exactly the previous preview handle, exactly
once, stores the new file under the freshly drawn counter handle, and clears
the generated image and the error. -/
theorem upload_releases_once :
    (∀ ops : List Op, (revokes (run initState ops).2).Nodup) ∧
    (∀ (s : AppState) (files : List FileData) (u : UploadedImage)
        (f : FileData),
      s.uploadedImage = some u → files.head? = some f →
      (handleImageUpload s files).2 = [Effect.revoke u.preview] ∧
      (handleImageUpload s files).1.uploadedImage
          = some { file := f, preview := s.nextHandle } ∧
      (handleImageUpload s files).1.nextHandle = s.nextHandle + 1 ∧
      (handleImageUpload s files).1.generatedImage = none ∧
      (handleImageUpload s files).1.error = none) := by
  constructor
  · intro ops
    have h0 : HandleInv initState [] := by
      refine ⟨List.nodup_nil, ?_, ?_⟩ <;> simp [initState]
    have h := run_handleInv ops initState [] h0
    simpa using h.1
  · intro s files u f hu hf
    simp [handleImageUpload, hf, hu]

/-- Witness for C6: a session that uploads twice then removes revokes the
two distinct handles 0 and 1, each once; and a concrete upload over an
existing one revokes exactly the previous handle. -/
theorem upload_releases_once_witness :
    (revokes (run initState
        [Op.upload [{ bytes := [1], mimeType := "image/png" }],
         Op.upload [{ bytes := [2], mimeType := "image/png" }],
         Op.removeUpload]).2).Nodup ∧
    (handleImageUpload
        { initState with
            uploadedImage := some
              { file := { bytes := [1], mimeType := "image/png" },
                preview := 0 },
            nextHandle := 1 }
        [{ bytes := [2], mimeType := "image/png" }]).2
      = [Effect.revoke 0] := by
  constructor
  · exact upload_releases_once.1 _
  · exact (upload_releases_once.2
      { initState with
          uploadedImage := some
            { file := { bytes := [1], mimeType := "image/png" },
              preview := 0 },
          nextHandle := 1 }
      [{ bytes := [2], mimeType := "image/png" }]
      { file := { bytes := [1], mimeType := "image/png" }, preview := 0 }
      { bytes := [2], mimeType := "image/png" } rfl rfl).1

end Komodo
